import Mathlib

/-!
# Verification of the liblog datagram write path (`liblog/logd_write.c`)

A shallow embedding of the non-`FAKE_LOG_DEVICE` write path of
`src/liblog/logd_write.c`: the lazily initialized socket setup
(`__write_to_log_initialize`), the active send path with framing,
self-filter and reconnect (`__write_to_log_kernel`), the dispatcher
(`__write_to_log_init` / the `write_to_log` function pointer), the
administrative reset (`__android_log_close`) and the legacy radio tag
routing of `__android_log_write`.

System calls are modelled by an environment record carrying each call's
outcome; every operation returns, besides its C return value and the new
global state, a trace of the externally visible events (socket creation,
connect, close, sends with their segment counts, uid reads), so that
claims about "no I/O is attempted" or "exactly one retry" are statements
about the trace.
-/

namespace LogdWrite

/-- `AID_ROOT` from the platform header `android_filesystem_config.h`
(the root user identity, numerically 0).  The source uses it as the
initial value of the cached uid: `static uid_t last_uid = AID_ROOT;`. -/
def AID_ROOT : Nat := 0

/-- `AID_LOGD` from the platform header `android_filesystem_config.h`:
the identity of the log collector daemon after its privilege drop. -/
def AID_LOGD : Nat := 1036

/-- Linux `errno` value `EBADF` (bad file descriptor). -/
def EBADF : Nat := 9

/-- Linux `errno` value `EAGAIN` (receive buffer full on a non-blocking
datagram socket). -/
def EAGAIN : Nat := 11

/-- Linux `errno` value `ENOTCONN` ("the peer has gone away": logd died). -/
def ENOTCONN : Nat := 107

/-- Linux `errno` value `ECONNREFUSED` (no collector listening). -/
def ECONNREFUSED : Nat := 111

/-- The three values the `write_to_log` function pointer ranges over in
the source: `__write_to_log_init` (uninitialized), `__write_to_log_null`
(disabled, "give up, resources too limited") and `__write_to_log_kernel`
(active). -/
inductive WriteStrategy where
  | init
  | null
  | kernel
deriving DecidableEq, Repr

/-- The process-wide mutable globals of `logd_write.c`:
the `write_to_log` function pointer, the socket descriptor `logd_fd`
(`-1` when no channel is installed) and the cached uid `last_uid`. -/
structure LogState where
  strategy : WriteStrategy
  logd_fd : Int
  last_uid : Nat
deriving DecidableEq, Repr

/-- Externally visible events of one call, in program order:
`uidRead` is a `getuid()` call, `send n` a `writev` with `n` iovec
segments, `reinit` entry into `__write_to_log_initialize`, `socketCall`
a `socket()` call, `connectCall` a `connect()` call, and `closeFd fd` a
`close(fd)` call. -/
inductive Ev where
  | uidRead
  | send (segCount : Nat)
  | reinit
  | socketCall
  | connectCall
  | closeFd (fd : Int)
deriving DecidableEq, Repr

/-- Outcome of a system call: either success with a value (a descriptor
or a byte count) or failure with an `errno`. -/
inductive SysRes where
  | ok (v : Nat)
  | fail (errno : Nat)
deriving DecidableEq, Repr

/-- Environment for one run of `__write_to_log_initialize`: outcomes of
`socket()`, `fcntl(F_SETFL, O_NONBLOCK)` and `connect()`. -/
structure SetupEnv where
  socketRes : SysRes
  fcntlErr : Option Nat
  connectErr : Option Nat
deriving DecidableEq, Repr

/-- Embedding of `__write_to_log_initialize` (logd_write.c:191-233),
which is always run under `log_init_lock`.  It first closes any previous
descriptor, then creates a datagram socket, sets it non-blocking, and
connects it to `/dev/socket/logdw`.  On `socket` or `fcntl` failure the
function pointer is switched to `__write_to_log_null`; on `connect`
failure the descriptor is closed and discarded but the strategy is left
unchanged.  Returns `(ret, state, events)`. -/
def writeToLogSetup (st : LogState) (env : SetupEnv) : Int × LogState × List Ev :=
  let closeEvs : List Ev := if 0 ≤ st.logd_fd then [Ev.closeFd st.logd_fd] else []
  match env.socketRes with
  | SysRes.fail e =>
      (-(e : Int), { st with strategy := WriteStrategy.null, logd_fd := -1 },
        closeEvs ++ [Ev.socketCall])
  | SysRes.ok fd =>
      match env.fcntlErr with
      | some e =>
          (-(e : Int), { st with strategy := WriteStrategy.null, logd_fd := -1 },
            closeEvs ++ [Ev.socketCall, Ev.closeFd (fd : Int)])
      | none =>
          match env.connectErr with
          | some e =>
              (-(e : Int), { st with logd_fd := -1 },
                closeEvs ++ [Ev.socketCall, Ev.connectCall, Ev.closeFd (fd : Int)])
          | none =>
              (0, { st with logd_fd := (fd : Int) },
                closeEvs ++ [Ev.socketCall, Ev.connectCall])

/-- The return value of `__write_to_log_initialize` depends only on the
syscall outcomes, not on the incoming state. -/
def setupRet (env : SetupEnv) : Int :=
  match env.socketRes with
  | SysRes.fail e => -(e : Int)
  | SysRes.ok _ =>
      match env.fcntlErr with
      | some e => -(e : Int)
      | none =>
          match env.connectErr with
          | some e => -(e : Int)
          | none => 0

/-- The truncation loop of the frame builder
(logd_write.c:312-323), as a pure function on the caller segment
lengths: walks the segments accumulating `payload_size`; once the
running total exceeds `M` (`LOGGER_ENTRY_MAX_PAYLOAD`), shortens the
current segment by the overshoot, keeps it only if the shortened length
is nonzero, and drops everything after it.  `acc` is the running
`payload_size` before the current segment (0 at entry). -/
def truncateSegs (M : Nat) (acc : Nat) : List Nat → List Nat
  | [] => []
  | l :: rest =>
      if M < acc + l then
        if l - (acc + l - M) ≠ 0 then [l - (acc + l - M)] else []
      else
        l :: truncateSegs M (acc + l) rest

/-- Index of the first caller segment at which the running total
exceeds `M` (equals the list length when the total stays within `M`). -/
def overflowIdx (M : Nat) (acc : Nat) : List Nat → Nat
  | [] => 0
  | l :: rest => if M < acc + l then 0 else overflowIdx M (acc + l) rest + 1

/-- The header subtraction at logd_write.c:354-356: a byte count larger
than the three fixed headers (`sizeof_log_id_t + sizeof(tid) +
sizeof(log_time)`, `hdr` bytes in total) is reduced by the header size,
so the caller sees only caller-payload bytes. -/
def postHeaderSub (hdr : Nat) (ret : Int) : Int :=
  if (hdr : Int) < ret then ret - (hdr : Int) else ret

/-- Environment for one run of `__write_to_log_kernel`: the uid
`getuid()` would return, the outcome of the first `writev`, the syscall
outcomes of the reconnect's `__write_to_log_initialize`, and the outcome
of the retry `writev`. -/
structure KernelEnv where
  uid : Nat
  write1 : SysRes
  reconnect : SetupEnv
  write2 : SysRes
deriving DecidableEq, Repr

/-- Embedding of the non-fake `__write_to_log_kernel`
(logd_write.c:235-360).  `M` is `LOGGER_ENTRY_MAX_PAYLOAD`, `hdr` the
total byte size of the three header segments, `vec` the caller segment
lengths (`nr = vec.length`).  In order: the self-filter (cached uid,
refreshed while it still equals `AID_ROOT`; a record from `AID_LOGD` is
dropped with return 0), the bad-descriptor check, frame assembly with
truncation (the first `writev` is passed `i = 3 + ` number of kept
caller segments), and on `ENOTCONN` one locked re-initialization
followed, if it succeeded, by one retry `writev` that is passed
`nr + 3` segments. -/
def writeToLogKernel (M hdr : Nat) (st : LogState) (env : KernelEnv)
    (vec : List Nat) : Int × LogState × List Ev :=
  let uidEvs : List Ev := if st.last_uid = AID_ROOT then [Ev.uidRead] else []
  let lu : Nat := if st.last_uid = AID_ROOT then env.uid else st.last_uid
  let st1 : LogState := { st with last_uid := lu }
  if lu = AID_LOGD then
    (0, st1, uidEvs)
  else if st1.logd_fd < 0 then
    (-(EBADF : Int), st1, uidEvs)
  else
    let i : Nat := 3 + (truncateSegs M 0 vec).length
    match env.write1 with
    | SysRes.ok n =>
        (postHeaderSub hdr (n : Int), st1, uidEvs ++ [Ev.send i])
    | SysRes.fail e =>
        if e = ENOTCONN then
          let r := writeToLogSetup st1 env.reconnect
          if r.1 < 0 then
            (r.1, r.2.1, uidEvs ++ [Ev.send i, Ev.reinit] ++ r.2.2)
          else
            match env.write2 with
            | SysRes.ok n =>
                (postHeaderSub hdr (n : Int), r.2.1,
                  uidEvs ++ [Ev.send i, Ev.reinit] ++ r.2.2
                    ++ [Ev.send (vec.length + 3)])
            | SysRes.fail e2 =>
                (postHeaderSub hdr (-(e2 : Int)), r.2.1,
                  uidEvs ++ [Ev.send i, Ev.reinit] ++ r.2.2
                    ++ [Ev.send (vec.length + 3)])
        else
          (postHeaderSub hdr (-(e : Int)), st1, uidEvs ++ [Ev.send i])

/-- Environment for one call through the `write_to_log` pointer: the
syscall outcomes of the first-call `__write_to_log_initialize` plus a
`KernelEnv` for the forwarded active send. -/
structure DispatchEnv where
  firstSetup : SetupEnv
  kenv : KernelEnv
deriving DecidableEq, Repr

/-- One call through the `write_to_log` function pointer.  When the
pointer is `__write_to_log_init` (logd_write.c:419-444), it takes the
lock, runs `__write_to_log_initialize`, returns its error on failure
(leaving whatever strategy that set), otherwise swaps the pointer to
`__write_to_log_kernel` and forwards the call.  `__write_to_log_null`
returns -1.  `__write_to_log_kernel` is the active path. -/
def writeToLog (M hdr : Nat) (st : LogState) (env : DispatchEnv)
    (vec : List Nat) : Int × LogState × List Ev :=
  match st.strategy with
  | WriteStrategy.init =>
      let r := writeToLogSetup st env.firstSetup
      if r.1 < 0 then
        (r.1, r.2.1, Ev.reinit :: r.2.2)
      else
        let st2 : LogState := { r.2.1 with strategy := WriteStrategy.kernel }
        let k := writeToLogKernel M hdr st2 env.kenv vec
        (k.1, k.2.1, Ev.reinit :: r.2.2 ++ k.2.2)
  | WriteStrategy.null => (-1, st, [])
  | WriteStrategy.kernel => writeToLogKernel M hdr st env.kenv vec

/-- Embedding of `__android_log_close` (logd_write.c:383-417): under the
lock, the pointer is reset to `__write_to_log_init` and `close(logd_fd)`
is called unconditionally before `logd_fd = -1`.  The returned trace
records the `close` call with the descriptor value it was given. -/
def androidLogClose (st : LogState) : LogState × List Ev :=
  ({ st with strategy := WriteStrategy.init, logd_fd := -1 },
    [Ev.closeFd st.logd_fd])

/-- `true` exactly when the trace contains a `close` of a live
descriptor (a nonnegative one); `close(-1)` touches no live resource. -/
def closesLive (evs : List Ev) : Bool :=
  evs.any fun ev =>
    match ev with
    | Ev.closeFd fd => 0 ≤ fd
    | _ => false

/-- Whether an event is a `writev` call. -/
def isSendEv : Ev → Bool
  | Ev.send _ => true
  | _ => false

/-- Whether an event is an entry into `__write_to_log_initialize`. -/
def isReinitEv : Ev → Bool
  | Ev.reinit => true
  | _ => false

/-- Number of `writev` calls in a trace. -/
def countSend (evs : List Ev) : Nat :=
  evs.countP isSendEv

/-- Number of entries into `__write_to_log_initialize` in a trace. -/
def countReinit (evs : List Ev) : Nat :=
  evs.countP isReinitEv

/-- Number of `getuid()` calls in a trace. -/
def countUidRead (evs : List Ev) : Nat :=
  evs.countP fun ev => ev == Ev.uidRead

/-- The legacy radio tag test of `__android_log_write`
(logd_write.c:500-508): exact tags `HTC_RIL`, `AT`, `GSM`, `STK`,
`CDMA`, `PHONE`, `SMS`, and any tag with prefix `RIL` or `IMS`.  Tags
are modelled as character lists (the C code compares bytes; the tag set
concerned is ASCII, one byte per character). -/
def isRadioTag (tag : List Char) : Bool :=
  tag == "HTC_RIL".toList || "RIL".toList.isPrefixOf tag ||
  "IMS".toList.isPrefixOf tag ||
  tag == "AT".toList || tag == "GSM".toList || tag == "STK".toList ||
  tag == "CDMA".toList || tag == "PHONE".toList || tag == "SMS".toList

/-- Category constants of the closed `log_id_t` enumeration used by the
textual write path. -/
def LOG_ID_MAIN : Nat := 0

/-- The radio/telephony category of the `log_id_t` enumeration. -/
def LOG_ID_TELEPHONY : Nat := 1

/-- Tag rewriting and routing of `__android_log_write`
(logd_write.c:490-513): a matching tag routes the record to
`LOG_ID_TELEPHONY` and is rewritten by
`snprintf(tmp_tag, sizeof(tmp_tag), "use-Rlog/RLOG-%s", tag)` into a
32-byte buffer, i.e. to the first 31 bytes of the prefixed tag.
Returns the category and the tag actually framed. -/
def androidLogWriteRoute (tag : List Char) : Nat × List Char :=
  if isRadioTag tag then
    (LOG_ID_TELEPHONY, ("use-Rlog/RLOG-".toList ++ tag).take 31)
  else
    (LOG_ID_MAIN, tag)

/-! ## Helper lemmas -/

/-- The return value of `__write_to_log_initialize` does not depend on
the incoming state. -/
theorem writeToLogSetup_ret (st : LogState) (env : SetupEnv) :
    (writeToLogSetup st env).1 = setupRet env := by
  rcases env with ⟨sr, fe, ce⟩
  rcases sr with v | e <;> rcases fe with _ | e1 <;> rcases ce with _ | e2 <;>
    simp [writeToLogSetup, setupRet]

/-- `__write_to_log_initialize` performs no `writev`, no nested
re-initialization and no `getuid`. -/
theorem writeToLogSetup_trace (st : LogState) (env : SetupEnv) :
    countSend (writeToLogSetup st env).2.2 = 0 ∧
    countReinit (writeToLogSetup st env).2.2 = 0 ∧
    countUidRead (writeToLogSetup st env).2.2 = 0 := by
  rcases env with ⟨sr, fe, ce⟩
  rcases sr with v | e <;> rcases fe with _ | e1 <;> rcases ce with _ | e2 <;>
    by_cases h : (0 : Int) ≤ st.logd_fd <;>
      simp [writeToLogSetup, countSend, countReinit, countUidRead, h,
        isSendEv, isReinitEv]

/-- If the whole remainder fits in the cap, the truncation loop keeps
every segment unchanged. -/
theorem truncateSegs_of_le (M : Nat) :
    ∀ (vec : List Nat) (acc : Nat), acc + vec.sum ≤ M →
      truncateSegs M acc vec = vec := by
  intro vec
  induction vec with
  | nil => intro acc _; rfl
  | cons l rest ih =>
      intro acc h
      simp only [List.sum_cons] at h
      have h1 : ¬ M < acc + l := by omega
      simp only [truncateSegs, if_neg h1]
      rw [ih (acc + l) (by omega)]

/-- Structure of the truncation loop once the remainder overflows the
cap: the segments strictly before the overflow index are kept verbatim,
the overflowing segment is shortened to fill the cap exactly (dropped if
shortened to zero), and everything after it is discarded. -/
theorem truncateSegs_of_gt (M : Nat) :
    ∀ (vec : List Nat) (acc : Nat), acc ≤ M → M < acc + vec.sum →
      acc + (vec.take (overflowIdx M acc vec)).sum ≤ M ∧
      M < acc + (vec.take (overflowIdx M acc vec + 1)).sum ∧
      truncateSegs M acc vec =
        vec.take (overflowIdx M acc vec) ++
          (if M - acc - (vec.take (overflowIdx M acc vec)).sum = 0 then []
           else [M - acc - (vec.take (overflowIdx M acc vec)).sum]) := by
  intro vec
  induction vec with
  | nil =>
      intro acc h1 h2
      simp only [List.sum_nil] at h2
      omega
  | cons l rest ih =>
      intro acc h1 h2
      by_cases hl : M < acc + l
      · have hk : overflowIdx M acc (l :: rest) = 0 := by
          simp [overflowIdx, hl]
        have hlen : l - (acc + l - M) = M - acc := by omega
        refine ⟨by simp [hk]; omega, by simp [hk]; omega, ?_⟩
        simp only [hk, List.take_zero, List.sum_nil, List.nil_append,
          Nat.sub_zero, truncateSegs, if_pos hl, hlen]
        by_cases hz : M - acc = 0
        · simp [hz]
        · simp [hz]
      · have hk : overflowIdx M acc (l :: rest) =
            overflowIdx M (acc + l) rest + 1 := by
          simp [overflowIdx, hl]
        have h2' : M < (acc + l) + rest.sum := by
          simp only [List.sum_cons] at h2; omega
        obtain ⟨ha, hb, hc⟩ := ih (acc + l) (by omega) h2'
        refine ⟨?_, ?_, ?_⟩
        · simp only [hk, List.take_succ_cons, List.sum_cons]
          omega
        · simp only [hk, List.take_succ_cons, List.sum_cons]
          omega
        · simp only [hk, List.take_succ_cons, truncateSegs, if_neg hl, hc,
            List.cons_append, List.sum_cons]
          have : M - acc - (l + (rest.take (overflowIdx M (acc + l) rest)).sum)
              = M - (acc + l) - (rest.take (overflowIdx M (acc + l) rest)).sum := by
            omega
          rw [this]

/-- A successful byte count larger than the header is reduced by the
header size. -/
theorem postHeaderSub_ok (hdr n : Nat) (h : hdr < n) :
    postHeaderSub hdr (n : Int) = ((n - hdr : Nat) : Int) := by
  simp only [postHeaderSub]
  split <;> omega

/-- A negated errno is never larger than the header size, so the header
subtraction leaves it unchanged. -/
theorem postHeaderSub_err (hdr e : Nat) :
    postHeaderSub hdr (-(e : Int)) = -(e : Int) := by
  simp only [postHeaderSub]
  split <;> omega

/-- `countP` form of the no-send part of `writeToLogSetup_trace`. -/
theorem writeToLogSetup_countP_send (st : LogState) (env : SetupEnv) :
    List.countP isSendEv (writeToLogSetup st env).2.2 = 0 :=
  (writeToLogSetup_trace st env).1

/-- `countP` form of the no-reinit part of `writeToLogSetup_trace`. -/
theorem writeToLogSetup_countP_reinit (st : LogState) (env : SetupEnv) :
    List.countP isReinitEv (writeToLogSetup st env).2.2 = 0 :=
  (writeToLogSetup_trace st env).2.1

/-! ## Claims -/

/-- C3: for every ordered sequence of caller segments whose cumulative
byte length exceeds the cap `M`, the frame builder truncates the segment
at which the running total first exceeds `M` so that the total
caller-payload length is exactly `M`, keeps that truncated segment only
if its resulting length is nonzero, and drops every later segment;
sequences whose total is within `M` pass through unchanged. -/
theorem frameBuilder_truncates_to_cap (M : Nat) (vec : List Nat) :
    (vec.sum ≤ M → truncateSegs M 0 vec = vec) ∧
    (M < vec.sum →
      (truncateSegs M 0 vec).sum = M ∧
      ∃ k, (vec.take k).sum ≤ M ∧ M < (vec.take (k + 1)).sum ∧
        truncateSegs M 0 vec =
          vec.take k ++
            (if M - (vec.take k).sum = 0 then []
             else [M - (vec.take k).sum])) := by
  constructor
  · intro h
    exact truncateSegs_of_le M vec 0 (by omega)
  · intro h
    obtain ⟨ha, hb, hc⟩ := truncateSegs_of_gt M vec 0 (Nat.zero_le M) (by omega)
    simp only [Nat.zero_add, Nat.sub_zero] at ha hb hc
    constructor
    · rw [hc, List.sum_append]
      by_cases hz : M - (vec.take (overflowIdx M 0 vec)).sum = 0
      · rw [if_pos hz]
        simp only [List.sum_nil]
        omega
      · rw [if_neg hz]
        simp only [List.sum_cons, List.sum_nil]
        omega
    · exact ⟨overflowIdx M 0 vec, ha, hb, hc⟩

/-- Witness for C3: a pass-through run (`[3,4]` within cap 9) and a
truncating run (`[3,4,2]` against cap 5, truncated to `[3,2]`). -/
theorem frameBuilder_truncates_to_cap_witness :
    (List.sum [3, 4] ≤ 9 ∧ truncateSegs 9 0 [3, 4] = [3, 4]) ∧
    (5 < List.sum [3, 4, 2] ∧
      (truncateSegs 5 0 [3, 4, 2]).sum = 5 ∧
      ∃ k, (List.take k [3, 4, 2]).sum ≤ 5 ∧
        5 < (List.take (k + 1) [3, 4, 2]).sum ∧
        truncateSegs 5 0 [3, 4, 2] =
          List.take k [3, 4, 2] ++
            (if 5 - (List.take k [3, 4, 2]).sum = 0 then []
             else [5 - (List.take k [3, 4, 2]).sum])) :=
  ⟨⟨by decide, (frameBuilder_truncates_to_cap 9 [3, 4]).1 (by decide)⟩,
   ⟨by decide, (frameBuilder_truncates_to_cap 5 [3, 4, 2]).2 (by decide)⟩⟩

/-- C7: the administrative reset always leaves the strategy
Uninitialized with no channel handle installed, a second reset is a
state no-op that closes no live descriptor, and a reset from the
already-reset state is a no-op (the function returns nothing, so there
is no error to return). -/
theorem androidLogClose_idempotent (st : LogState) :
    (androidLogClose st).1.strategy = WriteStrategy.init ∧
    (androidLogClose st).1.logd_fd = -1 ∧
    (androidLogClose (androidLogClose st).1).1 = (androidLogClose st).1 ∧
    closesLive (androidLogClose (androidLogClose st).1).2 = false ∧
    (st.strategy = WriteStrategy.init ∧ st.logd_fd = -1 →
      (androidLogClose st).1 = st ∧
      closesLive (androidLogClose st).2 = false) := by
  refine ⟨rfl, rfl, rfl, rfl, ?_⟩
  rintro ⟨h1, h2⟩
  constructor
  · cases st
    simp_all [androidLogClose]
  · simp [androidLogClose, closesLive, h2]

/-- Witness for C7: resetting from the already-reset state. -/
theorem androidLogClose_idempotent_witness :
    (androidLogClose ⟨WriteStrategy.init, -1, 0⟩).1
        = (⟨WriteStrategy.init, -1, 0⟩ : LogState) ∧
    closesLive (androidLogClose ⟨WriteStrategy.init, -1, 0⟩).2 = false :=
  (androidLogClose_idempotent ⟨WriteStrategy.init, -1, 0⟩).2.2.2.2 ⟨rfl, rfl⟩

/-- C4: when the cached (or, on the first call, freshly observed) self
identity equals `AID_LOGD`, the active path returns 0 and performs no
channel I/O at all — the only event it may emit is the uid read itself.
In particular this holds when `logd_fd` is invalid, showing the
self-filter is evaluated before the bad-descriptor check. -/
theorem selfFilter_before_channel_io (M hdr : Nat) (st : LogState)
    (env : KernelEnv) (vec : List Nat)
    (h : (if st.last_uid = AID_ROOT then env.uid else st.last_uid) = AID_LOGD) :
    (writeToLogKernel M hdr st env vec).1 = 0 ∧
    countSend (writeToLogKernel M hdr st env vec).2.2 = 0 ∧
    ∀ ev ∈ (writeToLogKernel M hdr st env vec).2.2, ev = Ev.uidRead := by
  by_cases hroot : st.last_uid = AID_ROOT <;>
    simp_all [writeToLogKernel, countSend, isSendEv, List.countP_cons]

/-- Witness for C4: a process whose cached identity is `AID_LOGD` and
whose descriptor is invalid (`logd_fd = -1`) still gets 0, not `-EBADF`,
with no I/O events. -/
theorem selfFilter_before_channel_io_witness :
    (writeToLogKernel 4076 11 ⟨WriteStrategy.kernel, -1, AID_LOGD⟩
        ⟨AID_LOGD, SysRes.ok 20, ⟨SysRes.ok 3, none, none⟩, SysRes.ok 20⟩
        [1, 8]).1 = 0 ∧
    countSend (writeToLogKernel 4076 11 ⟨WriteStrategy.kernel, -1, AID_LOGD⟩
        ⟨AID_LOGD, SysRes.ok 20, ⟨SysRes.ok 3, none, none⟩, SysRes.ok 20⟩
        [1, 8]).2.2 = 0 ∧
    ∀ ev ∈ (writeToLogKernel 4076 11 ⟨WriteStrategy.kernel, -1, AID_LOGD⟩
        ⟨AID_LOGD, SysRes.ok 20, ⟨SysRes.ok 3, none, none⟩, SysRes.ok 20⟩
        [1, 8]).2.2, ev = Ev.uidRead :=
  selfFilter_before_channel_io 4076 11 ⟨WriteStrategy.kernel, -1, AID_LOGD⟩
    ⟨AID_LOGD, SysRes.ok 20, ⟨SysRes.ok 3, none, none⟩, SysRes.ok 20⟩
    [1, 8] (by decide)

/-- C10: when a send on the active path succeeds with a byte count
larger than the combined size of the three header segments, the caller
gets that byte count minus the header size — this holds for the first
send and for the retry after a successful reconnect. -/
theorem sendResult_excludes_header (M hdr : Nat) (st : LogState)
    (env : KernelEnv) (vec : List Nat) (n : Nat)
    (huid : (if st.last_uid = AID_ROOT then env.uid else st.last_uid) ≠ AID_LOGD)
    (hfd : 0 ≤ st.logd_fd) :
    (env.write1 = SysRes.ok n → hdr < n →
      (writeToLogKernel M hdr st env vec).1 = ((n - hdr : Nat) : Int)) ∧
    (env.write1 = SysRes.fail ENOTCONN → 0 ≤ setupRet env.reconnect →
      env.write2 = SysRes.ok n → hdr < n →
      (writeToLogKernel M hdr st env vec).1 = ((n - hdr : Nat) : Int)) := by
  have hfd' : ¬ st.logd_fd < (0 : Int) := by omega
  constructor
  · intro hw hn
    by_cases hroot : st.last_uid = AID_ROOT
    · rw [if_pos hroot] at huid
      simp [writeToLogKernel, hw, hroot, huid, hfd', postHeaderSub_ok hdr n hn]
    · rw [if_neg hroot] at huid
      simp [writeToLogKernel, hw, hroot, huid, hfd', postHeaderSub_ok hdr n hn]
  · intro hw hr hw2 hn
    have hr' : ¬ setupRet env.reconnect < 0 := by omega
    by_cases hroot : st.last_uid = AID_ROOT
    · rw [if_pos hroot] at huid
      simp [writeToLogKernel, hw, hw2, hroot, huid, hfd', writeToLogSetup_ret,
        hr', postHeaderSub_ok hdr n hn]
    · rw [if_neg hroot] at huid
      simp [writeToLogKernel, hw, hw2, hroot, huid, hfd', writeToLogSetup_ret,
        hr', postHeaderSub_ok hdr n hn]

/-- Witness for C10: a first-send success of 30 bytes with an 11-byte
header yields 19, and a retry success after reconnect likewise. -/
theorem sendResult_excludes_header_witness :
    ((writeToLogKernel 4076 11 ⟨WriteStrategy.kernel, 3, 1000⟩
        ⟨1000, SysRes.ok 30, ⟨SysRes.ok 4, none, none⟩, SysRes.ok 20⟩
        [1, 8]).1 = ((19 : Nat) : Int)) ∧
    ((writeToLogKernel 4076 11 ⟨WriteStrategy.kernel, 3, 1000⟩
        ⟨1000, SysRes.fail ENOTCONN, ⟨SysRes.ok 4, none, none⟩, SysRes.ok 30⟩
        [1, 8]).1 = ((19 : Nat) : Int)) :=
  ⟨(sendResult_excludes_header 4076 11 ⟨WriteStrategy.kernel, 3, 1000⟩
      ⟨1000, SysRes.ok 30, ⟨SysRes.ok 4, none, none⟩, SysRes.ok 20⟩
      [1, 8] 30 (by decide) (by decide)).1 rfl (by decide),
   (sendResult_excludes_header 4076 11 ⟨WriteStrategy.kernel, 3, 1000⟩
      ⟨1000, SysRes.fail ENOTCONN, ⟨SysRes.ok 4, none, none⟩, SysRes.ok 30⟩
      [1, 8] 30 (by decide) (by decide)).2 rfl (by decide) rfl (by decide)⟩

/-- C1: on the active path, a send failing with `ENOTCONN` triggers
exactly one re-initialization; if it succeeds the send is retried
exactly once (two sends in total), and if it fails its negated error is
returned with no retry; a send failing with any other errno (e.g.
`EAGAIN`) returns the negated errno immediately, with no
re-initialization and no retry. -/
theorem reconnect_only_on_enotconn (M hdr : Nat) (st : LogState)
    (env : KernelEnv) (vec : List Nat) (e : Nat)
    (huid : (if st.last_uid = AID_ROOT then env.uid else st.last_uid) ≠ AID_LOGD)
    (hfd : 0 ≤ st.logd_fd)
    (hw : env.write1 = SysRes.fail e) :
    (e = ENOTCONN →
      countReinit (writeToLogKernel M hdr st env vec).2.2 = 1 ∧
      (0 ≤ setupRet env.reconnect →
        countSend (writeToLogKernel M hdr st env vec).2.2 = 2) ∧
      (setupRet env.reconnect < 0 →
        countSend (writeToLogKernel M hdr st env vec).2.2 = 1 ∧
        (writeToLogKernel M hdr st env vec).1 = setupRet env.reconnect)) ∧
    (e ≠ ENOTCONN →
      (writeToLogKernel M hdr st env vec).1 = -(e : Int) ∧
      countReinit (writeToLogKernel M hdr st env vec).2.2 = 0 ∧
      countSend (writeToLogKernel M hdr st env vec).2.2 = 1) := by
  have hfd' : ¬ st.logd_fd < (0 : Int) := by omega
  constructor
  · intro he
    subst he
    refine ⟨?_, ?_, ?_⟩
    · by_cases hroot : st.last_uid = AID_ROOT
      · rw [if_pos hroot] at huid
        by_cases hsr : setupRet env.reconnect < 0
        · simp [writeToLogKernel, hw, hroot, huid, hfd', writeToLogSetup_ret,
            hsr, countReinit, List.countP_append, List.countP_cons,
            writeToLogSetup_countP_reinit, isReinitEv]
        · rcases hw2 : env.write2 with n2 | e2 <;>
            simp [writeToLogKernel, hw, hw2, hroot, huid, hfd',
              writeToLogSetup_ret, hsr, countReinit, List.countP_append,
              List.countP_cons, writeToLogSetup_countP_reinit, isReinitEv]
      · rw [if_neg hroot] at huid
        by_cases hsr : setupRet env.reconnect < 0
        · simp [writeToLogKernel, hw, hroot, huid, hfd', writeToLogSetup_ret,
            hsr, countReinit, List.countP_append, List.countP_cons,
            writeToLogSetup_countP_reinit, isReinitEv]
        · rcases hw2 : env.write2 with n2 | e2 <;>
            simp [writeToLogKernel, hw, hw2, hroot, huid, hfd',
              writeToLogSetup_ret, hsr, countReinit, List.countP_append,
              List.countP_cons, writeToLogSetup_countP_reinit, isReinitEv]
    · intro hsr
      have hsr' : ¬ setupRet env.reconnect < 0 := by omega
      by_cases hroot : st.last_uid = AID_ROOT
      · rw [if_pos hroot] at huid
        rcases hw2 : env.write2 with n2 | e2 <;>
          simp [writeToLogKernel, hw, hw2, hroot, huid, hfd',
            writeToLogSetup_ret, hsr', countSend, List.countP_append,
            List.countP_cons, writeToLogSetup_countP_send, isSendEv]
      · rw [if_neg hroot] at huid
        rcases hw2 : env.write2 with n2 | e2 <;>
          simp [writeToLogKernel, hw, hw2, hroot, huid, hfd',
            writeToLogSetup_ret, hsr', countSend, List.countP_append,
            List.countP_cons, writeToLogSetup_countP_send, isSendEv]
    · intro hsr
      by_cases hroot : st.last_uid = AID_ROOT
      · rw [if_pos hroot] at huid
        simp [writeToLogKernel, hw, hroot, huid, hfd', writeToLogSetup_ret,
          hsr, countSend, List.countP_append, List.countP_cons,
          writeToLogSetup_countP_send, isSendEv]
      · rw [if_neg hroot] at huid
        simp [writeToLogKernel, hw, hroot, huid, hfd', writeToLogSetup_ret,
          hsr, countSend, List.countP_append, List.countP_cons,
          writeToLogSetup_countP_send, isSendEv]
  · intro hne
    by_cases hroot : st.last_uid = AID_ROOT
    · rw [if_pos hroot] at huid
      simp [writeToLogKernel, hw, hroot, huid, hfd', hne, postHeaderSub_err,
        countSend, countReinit, List.countP_append, List.countP_cons,
        isSendEv, isReinitEv]
    · rw [if_neg hroot] at huid
      simp [writeToLogKernel, hw, hroot, huid, hfd', hne, postHeaderSub_err,
        countSend, countReinit, List.countP_append, List.countP_cons,
        isSendEv, isReinitEv]

/-- Witness for C1: an `ENOTCONN` failure with successful reconnect
(one reinit, two sends), an `ENOTCONN` failure with refused reconnect
(one reinit, one send, the reconnect error returned), and an `EAGAIN`
failure (no reinit, one send, `-EAGAIN` returned). -/
theorem reconnect_only_on_enotconn_witness :
    (countReinit (writeToLogKernel 4076 11 ⟨WriteStrategy.kernel, 3, 1000⟩
        ⟨1000, SysRes.fail ENOTCONN, ⟨SysRes.ok 4, none, none⟩, SysRes.ok 30⟩
        [1, 8]).2.2 = 1 ∧
      countSend (writeToLogKernel 4076 11 ⟨WriteStrategy.kernel, 3, 1000⟩
        ⟨1000, SysRes.fail ENOTCONN, ⟨SysRes.ok 4, none, none⟩, SysRes.ok 30⟩
        [1, 8]).2.2 = 2) ∧
    (countSend (writeToLogKernel 4076 11 ⟨WriteStrategy.kernel, 3, 1000⟩
        ⟨1000, SysRes.fail ENOTCONN, ⟨SysRes.ok 4, none, some ECONNREFUSED⟩,
          SysRes.ok 30⟩ [1, 8]).2.2 = 1 ∧
      (writeToLogKernel 4076 11 ⟨WriteStrategy.kernel, 3, 1000⟩
        ⟨1000, SysRes.fail ENOTCONN, ⟨SysRes.ok 4, none, some ECONNREFUSED⟩,
          SysRes.ok 30⟩ [1, 8]).1 =
        setupRet ⟨SysRes.ok 4, none, some ECONNREFUSED⟩) ∧
    ((writeToLogKernel 4076 11 ⟨WriteStrategy.kernel, 3, 1000⟩
        ⟨1000, SysRes.fail EAGAIN, ⟨SysRes.ok 4, none, none⟩, SysRes.ok 30⟩
        [1, 8]).1 = -(EAGAIN : Int) ∧
      countReinit (writeToLogKernel 4076 11 ⟨WriteStrategy.kernel, 3, 1000⟩
        ⟨1000, SysRes.fail EAGAIN, ⟨SysRes.ok 4, none, none⟩, SysRes.ok 30⟩
        [1, 8]).2.2 = 0 ∧
      countSend (writeToLogKernel 4076 11 ⟨WriteStrategy.kernel, 3, 1000⟩
        ⟨1000, SysRes.fail EAGAIN, ⟨SysRes.ok 4, none, none⟩, SysRes.ok 30⟩
        [1, 8]).2.2 = 1) :=
  ⟨⟨((reconnect_only_on_enotconn 4076 11 ⟨WriteStrategy.kernel, 3, 1000⟩
        ⟨1000, SysRes.fail ENOTCONN, ⟨SysRes.ok 4, none, none⟩, SysRes.ok 30⟩
        [1, 8] ENOTCONN (by decide) (by decide) rfl).1 rfl).1,
    ((reconnect_only_on_enotconn 4076 11 ⟨WriteStrategy.kernel, 3, 1000⟩
        ⟨1000, SysRes.fail ENOTCONN, ⟨SysRes.ok 4, none, none⟩, SysRes.ok 30⟩
        [1, 8] ENOTCONN (by decide) (by decide) rfl).1 rfl).2.1 (by decide)⟩,
   ((reconnect_only_on_enotconn 4076 11 ⟨WriteStrategy.kernel, 3, 1000⟩
        ⟨1000, SysRes.fail ENOTCONN, ⟨SysRes.ok 4, none, some ECONNREFUSED⟩,
          SysRes.ok 30⟩ [1, 8] ENOTCONN (by decide) (by decide) rfl).1 rfl).2.2
      (by decide),
   (reconnect_only_on_enotconn 4076 11 ⟨WriteStrategy.kernel, 3, 1000⟩
        ⟨1000, SysRes.fail EAGAIN, ⟨SysRes.ok 4, none, none⟩, SysRes.ok 30⟩
        [1, 8] EAGAIN (by decide) (by decide) rfl).2 (by decide)⟩

/-- Every run of `__write_to_log_initialize` calls `socket()`. -/
theorem writeToLogSetup_socketCall (st : LogState) (env : SetupEnv) :
    Ev.socketCall ∈ (writeToLogSetup st env).2.2 := by
  rcases env with ⟨sr, fe, ce⟩
  rcases sr with v | e <;> rcases fe with _ | e1 <;> rcases ce with _ | e2 <;>
    by_cases h : (0 : Int) ≤ st.logd_fd <;>
      simp [writeToLogSetup, h]

/-- A write dispatched while the strategy is still Uninitialized always
attempts a fresh channel creation. -/
theorem writeToLog_init_socketCall (M hdr : Nat) (st : LogState)
    (env : DispatchEnv) (vec : List Nat)
    (h : st.strategy = WriteStrategy.init) :
    Ev.socketCall ∈ (writeToLog M hdr st env vec).2.2 := by
  have hs := writeToLogSetup_socketCall st env.firstSetup
  by_cases hr : (writeToLogSetup st env.firstSetup).1 < 0 <;>
    simp [writeToLog, h, hr, hs]

/-- `__write_to_log_initialize` never touches the cached uid. -/
theorem writeToLogSetup_last_uid (st : LogState) (env : SetupEnv) :
    (writeToLogSetup st env).2.1.last_uid = st.last_uid := by
  rcases env with ⟨sr, fe, ce⟩
  rcases sr with v | e <;> rcases fe with _ | e1 <;> rcases ce with _ | e2 <;>
    simp [writeToLogSetup]

/-- `countP` form of the no-uid-read part of `writeToLogSetup_trace`. -/
theorem writeToLogSetup_countP_uid (st : LogState) (env : SetupEnv) :
    List.countP (fun ev => ev == Ev.uidRead) (writeToLogSetup st env).2.2 = 0 :=
  (writeToLogSetup_trace st env).2.2

/-- No event of `__write_to_log_initialize` is a uid read. -/
theorem writeToLogSetup_no_uidRead (st : LogState) (env : SetupEnv) :
    ∀ ev ∈ (writeToLogSetup st env).2.2, ev ≠ Ev.uidRead := by
  rcases env with ⟨sr, fe, ce⟩
  rcases sr with v | e <;> rcases fe with _ | e1 <;> rcases ce with _ | e2 <;>
    by_cases h : (0 : Int) ≤ st.logd_fd <;>
      simp [writeToLogSetup, h]

/-- Uid handling of the active path, across all of its branches: the
stored cache becomes the freshly read uid exactly when the cache still
held `AID_ROOT`, and `getuid()` is called exactly once in that case and
never otherwise. -/
theorem writeToLogKernel_uid (M hdr : Nat) (st : LogState) (env : KernelEnv)
    (vec : List Nat) :
    (writeToLogKernel M hdr st env vec).2.1.last_uid =
      (if st.last_uid = AID_ROOT then env.uid else st.last_uid) ∧
    countUidRead (writeToLogKernel M hdr st env vec).2.2 =
      (if st.last_uid = AID_ROOT then 1 else 0) := by
  rcases hw1 : env.write1 with n1 | e1 <;>
    by_cases hroot : st.last_uid = AID_ROOT <;>
      simp only [writeToLogKernel, hw1, hroot, if_true, if_false, ite_true,
        ite_false]
  all_goals repeat' split
  all_goals
    simp_all [countUidRead, List.countP_append, List.countP_cons,
      writeToLogSetup_countP_uid, writeToLogSetup_last_uid]

/-- C2 counterexample: with no collector listening (`connect` refused),
the first write returns `-ECONNREFUSED` but the strategy does **not**
become Disabled — it stays Uninitialized — and a second write, with no
intervening reset, creates a fresh socket and attempts a fresh connect. -/
theorem disabled_not_sticky_on_connect_refused :
    (writeToLog 4076 11 ⟨WriteStrategy.init, -1, 0⟩
        ⟨⟨SysRes.ok 3, none, some ECONNREFUSED⟩,
          ⟨0, SysRes.ok 20, ⟨SysRes.ok 3, none, none⟩, SysRes.ok 20⟩⟩
        [1]).1 = -(ECONNREFUSED : Int) ∧
    (writeToLog 4076 11 ⟨WriteStrategy.init, -1, 0⟩
        ⟨⟨SysRes.ok 3, none, some ECONNREFUSED⟩,
          ⟨0, SysRes.ok 20, ⟨SysRes.ok 3, none, none⟩, SysRes.ok 20⟩⟩
        [1]).2.1.strategy ≠ WriteStrategy.null ∧
    Ev.socketCall ∈ (writeToLog 4076 11
        (writeToLog 4076 11 ⟨WriteStrategy.init, -1, 0⟩
          ⟨⟨SysRes.ok 3, none, some ECONNREFUSED⟩,
            ⟨0, SysRes.ok 20, ⟨SysRes.ok 3, none, none⟩, SysRes.ok 20⟩⟩
          [1]).2.1
        ⟨⟨SysRes.ok 3, none, some ECONNREFUSED⟩,
          ⟨0, SysRes.ok 20, ⟨SysRes.ok 3, none, none⟩, SysRes.ok 20⟩⟩
        [1]).2.2 ∧
    Ev.connectCall ∈ (writeToLog 4076 11
        (writeToLog 4076 11 ⟨WriteStrategy.init, -1, 0⟩
          ⟨⟨SysRes.ok 3, none, some ECONNREFUSED⟩,
            ⟨0, SysRes.ok 20, ⟨SysRes.ok 3, none, none⟩, SysRes.ok 20⟩⟩
          [1]).2.1
        ⟨⟨SysRes.ok 3, none, some ECONNREFUSED⟩,
          ⟨0, SysRes.ok 20, ⟨SysRes.ok 3, none, none⟩, SysRes.ok 20⟩⟩
        [1]).2.2 := by
  decide

/-- C2 amended: a connect-step failure returns the negated errno but
leaves the strategy Uninitialized, so the next write re-attempts channel
creation; the Disabled strategy arises (and is then sticky, failing fast
with -1 and no I/O) only when setup fails at socket creation — in the
source, also at setting non-blocking mode. -/
theorem dispatcher_setup_failure_modes (M hdr : Nat) (st : LogState)
    (env env2 : DispatchEnv) (vec vec2 : List Nat) (fd e : Nat) :
    (st.strategy = WriteStrategy.init → 0 < e →
      env.firstSetup.socketRes = SysRes.ok fd →
      env.firstSetup.fcntlErr = none →
      env.firstSetup.connectErr = some e →
      (writeToLog M hdr st env vec).1 = -(e : Int) ∧
      (writeToLog M hdr st env vec).2.1.strategy = WriteStrategy.init ∧
      Ev.socketCall ∈
        (writeToLog M hdr (writeToLog M hdr st env vec).2.1 env2 vec2).2.2) ∧
    (st.strategy = WriteStrategy.init → 0 < e →
      env.firstSetup.socketRes = SysRes.fail e →
      (writeToLog M hdr st env vec).1 = -(e : Int) ∧
      (writeToLog M hdr st env vec).2.1.strategy = WriteStrategy.null) ∧
    (st.strategy = WriteStrategy.null →
      writeToLog M hdr st env vec = (-1, st, [])) := by
  refine ⟨?_, ?_, ?_⟩
  · intro h1 hepos h2 h3 h4
    have hneg : (-(e : Int)) < 0 := by omega
    refine ⟨?_, ?_, ?_⟩
    · simp [writeToLog, h1, writeToLogSetup, h2, h3, h4, hneg]
    · simp [writeToLog, h1, writeToLogSetup, h2, h3, h4, hneg]
    · refine writeToLog_init_socketCall M hdr _ env2 vec2 ?_
      simp [writeToLog, h1, writeToLogSetup, h2, h3, h4, hneg]
  · intro h1 hepos h2
    have hneg : (-(e : Int)) < 0 := by omega
    constructor
    · simp [writeToLog, h1, writeToLogSetup, h2, hneg]
    · simp [writeToLog, h1, writeToLogSetup, h2, hneg]
  · intro h1
    simp [writeToLog, h1]

/-- Witness for the amended C2: a connect-refused first write followed
by a second attempt that opens a new socket; a socket-creation failure
(`EAGAIN` as a stand-in errno) that disables the dispatcher; and a write
in the Disabled state failing fast. -/
theorem dispatcher_setup_failure_modes_witness :
    ((writeToLog 4076 11 ⟨WriteStrategy.init, -1, 0⟩
        ⟨⟨SysRes.ok 3, none, some ECONNREFUSED⟩,
          ⟨0, SysRes.ok 20, ⟨SysRes.ok 3, none, none⟩, SysRes.ok 20⟩⟩
        [1]).1 = -(ECONNREFUSED : Int) ∧
      (writeToLog 4076 11 ⟨WriteStrategy.init, -1, 0⟩
        ⟨⟨SysRes.ok 3, none, some ECONNREFUSED⟩,
          ⟨0, SysRes.ok 20, ⟨SysRes.ok 3, none, none⟩, SysRes.ok 20⟩⟩
        [1]).2.1.strategy = WriteStrategy.init ∧
      Ev.socketCall ∈ (writeToLog 4076 11
        (writeToLog 4076 11 ⟨WriteStrategy.init, -1, 0⟩
          ⟨⟨SysRes.ok 3, none, some ECONNREFUSED⟩,
            ⟨0, SysRes.ok 20, ⟨SysRes.ok 3, none, none⟩, SysRes.ok 20⟩⟩
          [1]).2.1
        ⟨⟨SysRes.ok 5, none, none⟩,
          ⟨0, SysRes.ok 20, ⟨SysRes.ok 3, none, none⟩, SysRes.ok 20⟩⟩
        [1]).2.2) ∧
    ((writeToLog 4076 11 ⟨WriteStrategy.init, -1, 0⟩
        ⟨⟨SysRes.fail EAGAIN, none, none⟩,
          ⟨0, SysRes.ok 20, ⟨SysRes.ok 3, none, none⟩, SysRes.ok 20⟩⟩
        [1]).1 = -(EAGAIN : Int) ∧
      (writeToLog 4076 11 ⟨WriteStrategy.init, -1, 0⟩
        ⟨⟨SysRes.fail EAGAIN, none, none⟩,
          ⟨0, SysRes.ok 20, ⟨SysRes.ok 3, none, none⟩, SysRes.ok 20⟩⟩
        [1]).2.1.strategy = WriteStrategy.null) ∧
    writeToLog 4076 11 ⟨WriteStrategy.null, -1, 0⟩
        ⟨⟨SysRes.ok 3, none, none⟩,
          ⟨0, SysRes.ok 20, ⟨SysRes.ok 3, none, none⟩, SysRes.ok 20⟩⟩
        [1] = (-1, ⟨WriteStrategy.null, -1, 0⟩, []) :=
  ⟨(dispatcher_setup_failure_modes 4076 11 ⟨WriteStrategy.init, -1, 0⟩
      ⟨⟨SysRes.ok 3, none, some ECONNREFUSED⟩,
        ⟨0, SysRes.ok 20, ⟨SysRes.ok 3, none, none⟩, SysRes.ok 20⟩⟩
      ⟨⟨SysRes.ok 5, none, none⟩,
        ⟨0, SysRes.ok 20, ⟨SysRes.ok 3, none, none⟩, SysRes.ok 20⟩⟩
      [1] [1] 3 ECONNREFUSED).1 rfl (by decide) rfl rfl rfl,
   (dispatcher_setup_failure_modes 4076 11 ⟨WriteStrategy.init, -1, 0⟩
      ⟨⟨SysRes.fail EAGAIN, none, none⟩,
        ⟨0, SysRes.ok 20, ⟨SysRes.ok 3, none, none⟩, SysRes.ok 20⟩⟩
      ⟨⟨SysRes.ok 5, none, none⟩,
        ⟨0, SysRes.ok 20, ⟨SysRes.ok 3, none, none⟩, SysRes.ok 20⟩⟩
      [1] [1] 3 EAGAIN).2.1 rfl (by decide) rfl,
   (dispatcher_setup_failure_modes 4076 11 ⟨WriteStrategy.null, -1, 0⟩
      ⟨⟨SysRes.ok 3, none, none⟩,
        ⟨0, SysRes.ok 20, ⟨SysRes.ok 3, none, none⟩, SysRes.ok 20⟩⟩
      ⟨⟨SysRes.ok 5, none, none⟩,
        ⟨0, SysRes.ok 20, ⟨SysRes.ok 3, none, none⟩, SysRes.ok 20⟩⟩
      [1] [1] 3 EAGAIN).2.2 rfl⟩

/-- C5: evaluation at an input whose frame was truncated.  The original
send passes `i = 4` iovec segments (headers plus the one truncated
caller segment; the second caller segment was dropped), but the retry
after a successful reconnect passes `nr + 3 = 5` segments — it does not
resend the same segment sequence, re-including the dropped segment slot
(whose iovec entry the C code never initialized). -/
theorem retry_after_reconnect_segment_counts :
    (writeToLogKernel 4076 11 ⟨WriteStrategy.kernel, 3, 1000⟩
        ⟨1000, SysRes.fail ENOTCONN, ⟨SysRes.ok 4, none, none⟩, SysRes.ok 100⟩
        [4080, 10]).2.2 =
      [Ev.send 4, Ev.reinit, Ev.closeFd 3, Ev.socketCall, Ev.connectCall,
        Ev.send 5] ∧
    truncateSegs 4076 0 [4080, 10] = [4076] := by
  decide

/-- C8 counterexample: the 20-byte tag `RILaaaaaaaaaaaaaaaaa` matches
the radio set and is rerouted, but its rewritten tag is **not** the
migration prefix followed by the original tag — `snprintf` into the
32-byte `tmp_tag` truncates it to 31 bytes. -/
theorem radioTag_rewrite_truncated :
    isRadioTag "RILaaaaaaaaaaaaaaaaa".toList = true ∧
    (androidLogWriteRoute "RILaaaaaaaaaaaaaaaaa".toList).1 = LOG_ID_TELEPHONY ∧
    (androidLogWriteRoute "RILaaaaaaaaaaaaaaaaa".toList).2 ≠
      ("use-Rlog/RLOG-" ++ "RILaaaaaaaaaaaaaaaaa").toList ∧
    (androidLogWriteRoute "RILaaaaaaaaaaaaaaaaa".toList).2 =
      "use-Rlog/RLOG-RILaaaaaaaaaaaaaa".toList := by
  decide

/-- C8 amended: every matching tag is rerouted to the radio category
with its tag rewritten to the first 31 bytes of the migration prefix
plus the original tag; whenever the prefixed tag fits the 32-byte buffer
(original tag at most 17 bytes, as in `RIL-foo`), that is exactly the
prefix followed by the original tag.  Non-matching tags go to the main
category unchanged. -/
theorem radioTag_reroute (tag : List Char) :
    (isRadioTag tag = true →
      (androidLogWriteRoute tag).1 = LOG_ID_TELEPHONY ∧
      (androidLogWriteRoute tag).2 = ("use-Rlog/RLOG-".toList ++ tag).take 31 ∧
      (tag.length ≤ 17 →
        (androidLogWriteRoute tag).2 = "use-Rlog/RLOG-".toList ++ tag)) ∧
    (isRadioTag tag = false →
      androidLogWriteRoute tag = (LOG_ID_MAIN, tag)) := by
  constructor
  · intro h
    refine ⟨by simp [androidLogWriteRoute, h], by simp [androidLogWriteRoute, h], ?_⟩
    intro hlen
    simp only [androidLogWriteRoute, h, if_pos]
    apply List.take_of_length_le
    have h14 : ("use-Rlog/RLOG-".toList).length = 14 := by decide
    simp [List.length_append, h14]
    omega
  · intro h
    simp [androidLogWriteRoute, h]

/-- Witness for the amended C8: `RIL-foo` is rerouted with the full
rewritten tag, and a non-matching tag passes through. -/
theorem radioTag_reroute_witness :
    ((androidLogWriteRoute "RIL-foo".toList).1 = LOG_ID_TELEPHONY ∧
      (androidLogWriteRoute "RIL-foo".toList).2 =
        ("use-Rlog/RLOG-".toList ++ "RIL-foo".toList).take 31 ∧
      ("RIL-foo".toList.length ≤ 17 →
        (androidLogWriteRoute "RIL-foo".toList).2 =
          "use-Rlog/RLOG-".toList ++ "RIL-foo".toList)) ∧
    androidLogWriteRoute "NotRadio".toList = (LOG_ID_MAIN, "NotRadio".toList) :=
  ⟨(radioTag_reroute "RIL-foo".toList).1 (by decide),
   (radioTag_reroute "NotRadio".toList).2 (by decide)⟩

/-- C9 counterexample: for a process running as root, `getuid()` returns
`AID_ROOT` — the very value used as the "not yet checked" sentinel, so
the sentinel is not distinct from every real identity.  The first write
performs the update (assigning the real identity) yet a second write
reads the process identity again. -/
theorem selfIdentity_reread_for_root :
    countUidRead (writeToLogKernel 4076 11 ⟨WriteStrategy.kernel, 3, AID_ROOT⟩
        ⟨AID_ROOT, SysRes.ok 20, ⟨SysRes.ok 3, none, none⟩, SysRes.ok 20⟩
        [1]).2.2 = 1 ∧
    (writeToLogKernel 4076 11 ⟨WriteStrategy.kernel, 3, AID_ROOT⟩
        ⟨AID_ROOT, SysRes.ok 20, ⟨SysRes.ok 3, none, none⟩, SysRes.ok 20⟩
        [1]).2.1.last_uid = AID_ROOT ∧
    countUidRead (writeToLogKernel 4076 11
        (writeToLogKernel 4076 11 ⟨WriteStrategy.kernel, 3, AID_ROOT⟩
          ⟨AID_ROOT, SysRes.ok 20, ⟨SysRes.ok 3, none, none⟩, SysRes.ok 20⟩
          [1]).2.1
        ⟨AID_ROOT, SysRes.ok 20, ⟨SysRes.ok 3, none, none⟩, SysRes.ok 20⟩
        [1]).2.2 = 1 := by
  decide

/-- C9 amended: the cached identity starts at `AID_ROOT`, which serves
as the "not yet checked" sentinel (sound for every non-root process;
the source comments that logd always starts as root).  A write reads the
process identity exactly once while the cache still equals `AID_ROOT`
and stores what it read, and never reads it once the cache differs from
`AID_ROOT` — so the cache moves away from the sentinel at most once, but
a process whose real identity is root re-reads on every write. -/
theorem selfIdentity_cache_update (M hdr : Nat) (st : LogState)
    (env : KernelEnv) (vec : List Nat) :
    (st.last_uid = AID_ROOT →
      (writeToLogKernel M hdr st env vec).2.1.last_uid = env.uid ∧
      countUidRead (writeToLogKernel M hdr st env vec).2.2 = 1) ∧
    (st.last_uid ≠ AID_ROOT →
      (writeToLogKernel M hdr st env vec).2.1.last_uid = st.last_uid ∧
      countUidRead (writeToLogKernel M hdr st env vec).2.2 = 0) := by
  obtain ⟨h1, h2⟩ := writeToLogKernel_uid M hdr st env vec
  constructor
  · intro h
    rw [if_pos h] at h1
    rw [if_pos h] at h2
    exact ⟨h1, h2⟩
  · intro h
    rw [if_neg h] at h1
    rw [if_neg h] at h2
    exact ⟨h1, h2⟩

/-- Witness for the amended C9: a first write from the sentinel state
caches the observed identity 1000, and a write with identity 1000
already cached performs no identity read. -/
theorem selfIdentity_cache_update_witness :
    ((writeToLogKernel 4076 11 ⟨WriteStrategy.kernel, 3, AID_ROOT⟩
        ⟨1000, SysRes.ok 20, ⟨SysRes.ok 3, none, none⟩, SysRes.ok 20⟩
        [1]).2.1.last_uid = 1000 ∧
      countUidRead (writeToLogKernel 4076 11 ⟨WriteStrategy.kernel, 3, AID_ROOT⟩
        ⟨1000, SysRes.ok 20, ⟨SysRes.ok 3, none, none⟩, SysRes.ok 20⟩
        [1]).2.2 = 1) ∧
    ((writeToLogKernel 4076 11 ⟨WriteStrategy.kernel, 3, 1000⟩
        ⟨1000, SysRes.ok 20, ⟨SysRes.ok 3, none, none⟩, SysRes.ok 20⟩
        [1]).2.1.last_uid = 1000 ∧
      countUidRead (writeToLogKernel 4076 11 ⟨WriteStrategy.kernel, 3, 1000⟩
        ⟨1000, SysRes.ok 20, ⟨SysRes.ok 3, none, none⟩, SysRes.ok 20⟩
        [1]).2.2 = 0) :=
  ⟨(selfIdentity_cache_update 4076 11 ⟨WriteStrategy.kernel, 3, AID_ROOT⟩
      ⟨1000, SysRes.ok 20, ⟨SysRes.ok 3, none, none⟩, SysRes.ok 20⟩
      [1]).1 rfl,
   (selfIdentity_cache_update 4076 11 ⟨WriteStrategy.kernel, 3, 1000⟩
      ⟨1000, SysRes.ok 20, ⟨SysRes.ok 3, none, none⟩, SysRes.ok 20⟩
      [1]).2 (by decide)⟩

end LogdWrite
